import Mathlib

/-!
Verification development for the cMindX event-aggregation and
variant-scoring pipeline.

The definitions below are shallow embeddings of the TypeScript source:

* `computeVariantStats` / `statsFor` — `src/app/dashboard/page.tsx`
  (`computeVariantStats`, lines 60–110).
* `agentByVariant` / `agentStats` / `buildMockSuggestion` / `agentRoute`
  — `src/app/api/agent/route.ts`.
* `bySession` — the per-session aggregation shared verbatim by
  `src/app/api/landing-page/route.ts` and the persona-page route.
* `buildFallbackSpec` / `landingAgentRoute` — the landing-agent route
  (`buildFallbackSpec` sorts its input array in place; the model makes the
  mutated array explicit in the route's result).
* `promoteBatch` — the dashboard's `promoteLastSavedVariant` batch update.

Numbers are rationals (the event payloads in the repository are integer
percentages; no floating-point-specific behaviour is relied on by any claim).
JavaScript `Record` objects are modelled as association lists in insertion
order (string keys such as "A", "B", "unknown" are not array indices, so JS
preserves insertion order for them).
-/

namespace CMindX

/-- JSON-compatible payload values. The repository reads only
`payload.scrollPercent`, so an event's payload is modelled by that single
field. For string values, JS `Number(...)` coercion is modelled on the
decimal-literal subset (optional sign, digits, optional fraction; other
strings coerce to NaN, modelled as `none`). -/
inductive JVal where
  | jnum (q : ℚ)
  | jstr (s : String)
  | jbool (b : Bool)
  | jnull
deriving Repr, DecidableEq

/-- An analytics event. `scrollPercent` is `payload.scrollPercent`
(`none` = field absent / `undefined`); `variantId` is optional as in the
source type. The `ts` field is not modelled: every consumer processes the
event list in the order it was read. -/
structure AnalyticsEvent where
  sessionId : String
  eventType : String
  scrollPercent : Option JVal
  variantId : Option String
deriving Repr, DecidableEq

/-- Per-variant statistics computed by the dashboard (`VariantStats` in
`src/app/dashboard/page.tsx`). -/
structure VariantStats where
  variantId : String
  totalEvents : ℕ
  sessions : ℕ
  scrollEvents : ℕ
  avgScrollPercent : Option ℚ
  clickEvents : ℕ
deriving Repr, DecidableEq

/-- `typeof v === "number"`: only actual numbers pass. -/
def numValue : JVal → Option ℚ
  | .jnum q => some q
  | _ => none

/-- The dashboard's variant assignment: `const v = (e.variantId as VariantId)
?? "A"; if (v === "A" || v === "B") byVariant[v].push(e)`. For
`vid ∈ ["A","B"]` the bucket contains exactly the events whose defaulted
variant id equals `vid`; events with any other (present) id are dropped. -/
def variantEvents (events : List AnalyticsEvent) (vid : String) : List AnalyticsEvent :=
  events.filter (fun e => e.variantId.getD "A" = vid)

/-- `ve.filter((e) => e.eventType === "scroll")`. -/
def scrollEventsOf (ve : List AnalyticsEvent) : List AnalyticsEvent :=
  ve.filter (fun e => e.eventType = "scroll")

/-- The `typeof === "number"` projection of `payload.scrollPercent` over a
list of events. -/
def numScrollsOf (ve : List AnalyticsEvent) : List ℚ :=
  ve.filterMap (fun e => e.scrollPercent.bind numValue)

/-- `scrollPercents.length > 0 ? sum / length : null`. -/
def mkAvg (l : List ℚ) : Option ℚ :=
  if 0 < l.length then some (l.sum / (l.length : ℚ)) else none

/-- The numeric scroll percentages the dashboard averages for a variant:
scroll-typed events whose `payload.scrollPercent` is a number
(`typeof === "number"` filter in `computeVariantStats`). -/
def dashScrollVals (events : List AnalyticsEvent) (vid : String) : List ℚ :=
  numScrollsOf (scrollEventsOf (variantEvents events vid))

/-- One bucket of the dashboard's `computeVariantStats` (lines 70–107 of
`src/app/dashboard/page.tsx`): empty bucket yields the zero/null record,
otherwise counts, distinct sessions (JS `Set` size = dedup length; only its
cardinality is used), scroll events, the mean of the numeric scroll percents
(or `null`), and clicks. -/
def statsFor (events : List AnalyticsEvent) (vid : String) : VariantStats :=
  match variantEvents events vid with
  | [] =>
    { variantId := vid, totalEvents := 0, sessions := 0, scrollEvents := 0,
      avgScrollPercent := none, clickEvents := 0 }
  | e0 :: rest =>
    let ve := e0 :: rest
    { variantId := vid
      totalEvents := ve.length
      sessions := (ve.map (·.sessionId)).dedup.length
      scrollEvents := (scrollEventsOf ve).length
      avgScrollPercent := mkAvg (numScrollsOf (scrollEventsOf ve))
      clickEvents := (ve.filter (fun e => e.eventType = "click")).length }

/-- `computeVariantStats` iterates the fixed list `["A", "B"]`. -/
def computeVariantStats (events : List AnalyticsEvent) : List VariantStats :=
  ["A", "B"].map (statsFor events)

/-- JS `String.prototype.toUpperCase` on ASCII strings. -/
def jsToUpper (s : String) : String :=
  ⟨s.data.map Char.toUpper⟩

/-- The dashboard's event-level variant filter (lines 252–258 of
`src/app/dashboard/page.tsx`): `const v = (e.variantId ?? "unknown")
.toUpperCase()`; the "unknown" filter keeps events with `v` neither "A" nor
"B". -/
def variantFilterOk (filterVariant : String) (e : AnalyticsEvent) : Bool :=
  let v := jsToUpper (e.variantId.getD "unknown")
  if filterVariant = "all" then true
  else if filterVariant = "unknown" then !(v == "A") && !(v == "B")
  else v == jsToUpper filterVariant

/-! ## Agent-route aggregation (`src/app/api/agent/route.ts`, POST lines 113–150) -/

/-- JS `e.variantId || "unknown"`: `undefined`, `null` and `""` are falsy. -/
def jsOrUnknown (v : Option String) : String :=
  match v with
  | none => "unknown"
  | some s => if s = "" then "unknown" else s

/-- ASCII whitespace (the subset of JS `trim` whitespace exercised by the
modelled strings). -/
def isWsChar (c : Char) : Bool :=
  c == ' ' || c == '\t' || c == '\n' || c == '\r'

/-- JS `String.prototype.trim` over the character list. -/
def trimList (cs : List Char) : List Char :=
  ((cs.dropWhile isWsChar).reverse.dropWhile isWsChar).reverse

/-- Digits of a decimal literal to a natural number. -/
def digitsToNat (cs : List Char) : ℕ :=
  cs.foldl (fun a c => a * 10 + (c.toNat - 48)) 0

/-- Parse an unsigned decimal literal (`digits`, `digits.digits`, `digits.`,
`.digits`); anything else is NaN (`none`). -/
def parseDecimal (cs : List Char) : Option ℚ :=
  let p := cs.span Char.isDigit
  match p.2 with
  | [] => if p.1 = [] then none else some (digitsToNat p.1 : ℚ)
  | '.' :: rest2 =>
      let q := rest2.span Char.isDigit
      if q.2 = [] ∧ ¬(p.1 = [] ∧ q.1 = []) then
        some ((digitsToNat p.1 : ℚ) + (digitsToNat q.1 : ℚ) / (10 ^ q.1.length : ℚ))
      else none
  | _ => none

/-- JS `Number(string)` on the decimal-literal subset: trimmed; empty string
is `0`; optional sign then a decimal literal; otherwise NaN (`none`).
(Hex / exponent / `Infinity` forms are outside the modelled subset.) -/
def parseJsNumber (s : String) : Option ℚ :=
  match trimList s.data with
  | [] => some 0
  | '+' :: cs => parseDecimal cs
  | '-' :: cs => (parseDecimal cs).map Neg.neg
  | cs => parseDecimal cs

/-- JS `x ?? 0`: `undefined` and `null` are replaced by the number `0`. -/
def coalesceNullish (v : Option JVal) : JVal :=
  match v with
  | none => .jnum 0
  | some .jnull => .jnum 0
  | some w => w

/-- JS `Number(v)` on the modelled value universe; `none` models NaN. -/
def jsToNumber : JVal → Option ℚ
  | .jnum q => some q
  | .jnull => some 0
  | .jbool b => some (if b then 1 else 0)
  | .jstr s => parseJsNumber s

/-- The value the agent route pushes for a scroll event:
`const val = Number(e.payload.scrollPercent ?? 0); if (!Number.isNaN(val))
byVariant[vId].scrolls.push(val)`. `none` (NaN) means the event is skipped. -/
def agentScrollVal (e : AnalyticsEvent) : Option ℚ :=
  jsToNumber (coalesceNullish e.scrollPercent)

/-- The per-variant accumulator of the agent route. -/
structure AgentAgg where
  scrolls : List ℚ
  clicks : ℕ
  count : ℕ
deriving Repr, DecidableEq

/-! ### JS `Record` objects as insertion-ordered association lists -/

/-- First value stored under key `k` (JS property lookup). -/
def getVal {α : Type} (m : List (String × α)) (k : String) : Option α :=
  match m with
  | [] => none
  | p :: rest => if p.1 = k then some p.2 else getVal rest k

/-- Update the value under key `k` in place (JS property assignment). -/
def updVal {α : Type} (m : List (String × α)) (k : String) (f : α → α) :
    List (String × α) :=
  m.map (fun p => if p.1 = k then (p.1, f p.2) else p)

/-- JS `if (!m[k]) m[k] = v₀`: insert a fresh key at the end (insertion
order); objects are always truthy so an existing entry is kept. -/
def ensureKey {α : Type} (m : List (String × α)) (k : String) (v₀ : α) :
    List (String × α) :=
  match getVal m k with
  | some _ => m
  | none => m ++ [(k, v₀)]

/-- One iteration of the JS aggregation loop pattern
`if (!m[key e]) m[key e] = init; update m[key e] with e`. -/
def stepAssoc {α : Type} (key : AnalyticsEvent → String)
    (upd : α → AnalyticsEvent → α) (v₀ : String → α)
    (m : List (String × α)) (e : AnalyticsEvent) : List (String × α) :=
  updVal (ensureKey m (key e) (v₀ (key e))) (key e) (fun a => upd a e)

/-- The whole aggregation loop, starting from the empty object. -/
def foldAssoc {α : Type} (key : AnalyticsEvent → String)
    (upd : α → AnalyticsEvent → α) (v₀ : String → α)
    (events : List AnalyticsEvent) : List (String × α) :=
  events.foldl (stepAssoc key upd v₀) []

/-- The agent route's loop body for one event (lines 118–136): push the
coerced scroll value unless NaN, bump clicks on click events, always bump
the count. -/
def applyAgentEvent (a : AgentAgg) (e : AnalyticsEvent) : AgentAgg :=
  let a1 :=
    if e.eventType = "scroll" then
      match agentScrollVal e with
      | some v => { a with scrolls := a.scrolls ++ [v] }
      | none => a
    else a
  let a2 := if e.eventType = "click" then { a1 with clicks := a1.clicks + 1 } else a1
  { a2 with count := a2.count + 1 }

/-- `byVariant` of the agent route (also of the landing-agent route, whose
aggregation loop is identical), keyed by `e.variantId || "unknown"`. -/
def agentByVariant (events : List AnalyticsEvent) : List (String × AgentAgg) :=
  foldAssoc (fun e => jsOrUnknown e.variantId) applyAgentEvent (fun _ => ⟨[], 0, 0⟩) events

/-- `VariantStats` of the agent route: note `avgScroll` is a plain number,
`0` when there are no collected scroll values. -/
structure SimpleStats where
  variantId : String
  avgScroll : ℚ
  clicks : ℕ
deriving Repr, DecidableEq

/-- The `Object.entries(byVariant).map(...)` step (lines 138–150). -/
def aggToSimple (vid : String) (agg : AgentAgg) : SimpleStats :=
  { variantId := vid
    avgScroll :=
      if 0 < agg.scrolls.length then agg.scrolls.sum / (agg.scrolls.length : ℚ) else 0
    clicks := agg.clicks }

/-- The `stats` array the agent / landing-agent routes build and return. -/
def agentStats (events : List AnalyticsEvent) : List SimpleStats :=
  (agentByVariant events).map (fun p => aggToSimple p.1 p.2)

/-! ## Heuristic scorer / mock suggestion (`src/app/api/agent/route.ts` 47–94) -/

/-- An element of `withScore`: the spread `{...s, score}` keeps the stats
fields and adds the score. The winner (including its `score` field) is what
lands in `meta.basedOn`. -/
structure ScoredStats where
  variantId : String
  avgScroll : ℚ
  clicks : ℕ
  score : ℚ
deriving Repr, DecidableEq

/-- `stats.map((s) => ({...s, score: s.avgScroll + 10 * s.clicks}))`. -/
def withScore10 (stats : List SimpleStats) : List ScoredStats :=
  stats.map (fun s => ⟨s.variantId, s.avgScroll, s.clicks, s.avgScroll + 10 * (s.clicks : ℚ)⟩)

/-- `withScore.sort((a, b) => b.score - a.score)`: descending by score.
JS `Array.prototype.sort` is stable, and for a consistent comparator every
stable sort produces the same list, so stable insertion sort models it. -/
def sortByScoreDesc (l : List ScoredStats) : List ScoredStats :=
  l.insertionSort (fun a b => b.score ≤ a.score)

/-- `meta` of a suggestion. -/
structure SuggestionMeta where
  basedOn : Option ScoredStats
  explanation : String
deriving Repr, DecidableEq

/-- `SuggestedVariant` of the agent route. -/
structure SuggestedVariant where
  fromVariant : String
  heroTitle : String
  heroSubtitle : String
  primaryCta : String
  secondaryCta : String
  badge : String
  meta : SuggestionMeta
deriving Repr, DecidableEq

/-- `buildMockSuggestion` (lines 47–94). Both call sites immediately unpack
the `{suggestedVariant, aiUsed: "mock"}` wrapper, so the model returns the
suggestion itself. On empty stats it returns the fixed neutral template with
`basedOn: null`; otherwise it scores with weight 10, sorts descending and
takes the first element (`withScore[0]`) as winner. -/
def buildMockSuggestion (stats : List SimpleStats) : SuggestedVariant :=
  match stats with
  | [] =>
    { fromVariant := "A"
      heroTitle := "SELF-EVOLVING WEBSITE // BUILD C"
      heroSubtitle := "New variant evolved from the current winner, tuned to push visitors deeper into the page and increase interaction based on live analytics."
      primaryCta := "▶ Deploy Build C"
      secondaryCta := "◎ Inspect experiment logs"
      badge := "AGENT MODE • EVOLUTION"
      meta :=
        { basedOn := none
          explanation := "Mock agent: assumes that high scroll + clicks correlate with better engagement." } }
  | _ :: _ =>
    let winner := (sortByScoreDesc (withScore10 stats)).headD ⟨"A", 0, 0, 0⟩
    { fromVariant := winner.variantId
      heroTitle := "AUTONOMOUS GROWTH AGENT // BUILD C"
      heroSubtitle := "New variant evolved from the current winning variant, tuned from live scroll and click behaviour to drive deeper engagement."
      primaryCta := "▶ Deploy Build C"
      secondaryCta := "◎ Inspect experiment logs"
      badge := "AGENT MODE • EVOLUTION"
      meta :=
        { basedOn := some winner
          explanation := "Mock agent: uses a heuristic score (avg scroll + 10×clicks) to choose the best-performing variant and then proposes Build C from it." } }

/-! ## Landing-agent fallback (unnamed route file, `buildFallbackSpec` 63–134) -/

structure LandingHero where
  title : String
  subtitle : String
  primaryCta : String
  secondaryCta : String
  badge : String
  strip : String
deriving Repr, DecidableEq

structure LandingSystem where
  currentVariantLabel : String
  dataSourceLabel : String
  agentLabel : String
  description : String
deriving Repr, DecidableEq

structure LandingPillar where
  label : String
  title : String
  body : String
deriving Repr, DecidableEq

structure LandingCard where
  title : String
  body : String
deriving Repr, DecidableEq

structure LandingPageSpec where
  hero : LandingHero
  system : LandingSystem
  pillars : List LandingPillar
  stackPoints : List String
  editCards : List LandingCard
deriving Repr, DecidableEq

/-- The landing-agent fallback's score: `avgScroll + 8 * clicks`. -/
def score8 (s : SimpleStats) : ℚ := s.avgScroll + 8 * (s.clicks : ℚ)

/-- `stats.sort((a, b) => b.avgScroll + 8 * b.clicks - (a.avgScroll + 8 *
a.clicks))` — JS sorts the array **in place**; this is the array after the
mutation. -/
def sortByScore8Desc (stats : List SimpleStats) : List SimpleStats :=
  stats.insertionSort (fun a b => score8 b ≤ score8 a)

/-- `stats.sort(...)[0] || { variantId: "A", avgScroll: 50, clicks: 5 }`:
on an empty array `[0]` is `undefined` (falsy), so the fixed default winner
is used. -/
def fallbackWinner (stats : List SimpleStats) : SimpleStats :=
  (sortByScore8Desc stats).headD ⟨"A", 50, 5⟩

/-- JS `Number.prototype.toFixed(1)` on rationals: nearest multiple of 1/10,
ties toward the larger value, rendered with one decimal digit. (The float
negative-zero rendering is not modelled; no modelled input produces it.) -/
def toFixed1 (q : ℚ) : String :=
  let n : ℤ := ⌊q * 10 + 1 / 2⌋
  let sgn := if n < 0 then "-" else ""
  sgn ++ toString (n.natAbs / 10) ++ "." ++ toString (n.natAbs % 10)

/-- `buildFallbackSpec` (lines 63–134): the full fixed-template landing spec
parameterized by the winner. (It also mutates its argument; the route model
`landingAgentRoute` accounts for that by returning `sortByScore8Desc stats`
as the stats array on the fallback path.) -/
def buildFallbackSpec (stats : List SimpleStats) : LandingPageSpec :=
  let winner := fallbackWinner stats
  { hero :=
      { title := "A landing page that rewrites itself from live behaviour."
        subtitle := "Instead of shipping static copy, cMindX watches how visitors scroll, click and drop off — then quietly evolves your hero, CTAs and above-the-fold layout based on what actually performs."
        primaryCta := "View live dashboard"
        secondaryCta := "See how it works"
        badge := "Self-evolving website agent"
        strip := "Based on variant " ++ winner.variantId ++ " · Scroll " ++
          toFixed1 winner.avgScroll ++ "% · Clicks " ++ toString winner.clicks }
    system :=
      { currentVariantLabel := "Variant " ++ winner.variantId
        dataSourceLabel := "Firestore events & variants"
        agentLabel := "Gemini-powered evolution"
        description := "cMindX doesn’t replace your CMS. It sits in front of your marketing site and continuously answers the question: “What should this page say right now?”" }
    pillars :=
      [ { label := "Live traffic"
          title := "Your traffic becomes training data."
          body := "Every scroll, click and exit event is tracked with the active variant ID and stored as clean analytics." },
        { label := "Analytics → agent"
          title := "Behaviour becomes decisions."
          body := "The agent reads engagement patterns per variant and infers which stories keep people on the page." },
        { label := "New variants"
          title := "Copy evolves on its own."
          body := "Gemini proposes new hero layouts and CTAs you can inspect, approve or let auto-deploy." } ]
    stackPoints :=
      [ "Frontend: this landing page with a lightweight analytics hook.",
        "Storage: Firestore collections for events, variants and landing builds.",
        "Agent: Gemini-2.5-flash turns behaviour into new hero concepts.",
        "Control: dashboard to see performance, approve variants or enable auto-mode." ]
    editCards :=
      [ { title := "Hero headline & subcopy"
          body := "The core promise of your product, tuned from real traffic instead of guesswork." },
        { title := "Primary & secondary CTAs"
          body := "Button labels and framing that reflect what people actually click." },
        { title := "Above-the-fold layout"
          body := "The first screen visitors see, optimised to reduce bounce and drive scroll." },
        { title := "Variant history in Firestore"
          body := "Every AI build is stored with context so you can promote, roll back or compare." } ] }

/-! ## AI-response fence stripping (`parseJson`, agent route lines 36–44) -/

/-- The fence-stripping part of `parseJson`: trim, strip a leading
```` ```json ````, then a leading ```` ``` ````, then a trailing
```` ``` ````, then trim again. Each `.replace(/^.../, "")` removes at most
one anchored occurrence, exactly as modelled. (The landing-agent copy adds
the `/i` flag; no claim depends on case.) The JSON parse that follows is
modelled at the route boundary by `AIOutcome`. -/
def stripFences (text : String) : String :=
  let fence : List Char := ['`', '`', '`']
  let fenceJson : List Char := ['`', '`', '`', 'j', 's', 'o', 'n']
  let c0 := trimList text.data
  let c1 := if fenceJson.isPrefixOf c0 then c0.drop 7 else c0
  let c2 := if fence.isPrefixOf c1 then c1.drop 3 else c1
  let c3 := if fence.isPrefixOf c2.reverse then c2.take (c2.length - 3) else c2
  ⟨trimList c3⟩

/-! ## Per-session aggregation (landing-page route lines 63–90, persona-page
route lines 64–92; the two loops are textually identical) -/

/-- `SessionStats` of the landing-page / persona-page routes. -/
structure SessionStats where
  sessionId : String
  avgScroll : Option ℚ
  clicks : ℕ
deriving Repr, DecidableEq

/-- The running-average update: first value is taken as-is, afterwards
`s.avgScroll = (s.avgScroll + value) / 2`. -/
def scrollUpd (old : Option ℚ) (v : ℚ) : Option ℚ :=
  match old with
  | none => some v
  | some a => some ((a + v) / 2)

/-- The loop body for one event: scroll events with a `number`-typed
`scrollPercent` update the running average; click events bump the count. -/
def applySessionEvent (s : SessionStats) (e : AnalyticsEvent) : SessionStats :=
  let s1 :=
    if e.eventType = "scroll" then
      match e.scrollPercent.bind numValue with
      | some v => { s with avgScroll := scrollUpd s.avgScroll v }
      | none => s
    else s
  if e.eventType = "click" then { s1 with clicks := s1.clicks + 1 } else s1

/-- `bySession`: every event materialises its session's entry
(`{sessionId, avgScroll: null, clicks: 0}`), then the entry is updated. -/
def bySession (events : List AnalyticsEvent) : List (String × SessionStats) :=
  foldAssoc (fun e => e.sessionId) applySessionEvent
    (fun sid => ⟨sid, none, 0⟩) events

/-! ## Route models. The external AI call is a black box (prompt in, text or
error out); `AIOutcome` enumerates what the route code can observe of it:
no credential, a thrown call error, a response whose text fails `JSON.parse`
after fence stripping, or a parsed value. -/

inductive AIOutcome (α : Type) where
  | noKey
  | callFailed (msg : String)
  | badParse (msg : String)
  | parsed (value : α)
deriving Repr, DecidableEq

/-- The agent route's parsed AI response: arbitrary JSON, so every expected
field may be absent. Only the four fields below are ever inspected. -/
structure ParsedSuggestion where
  fromVariant : Option String
  heroTitle : Option String
  heroSubtitle : Option String
  primaryCta : Option String
  secondaryCta : Option String
  badge : Option String
deriving Repr, DecidableEq

/-- JS truthiness of `parsed.field` for an optional string: absent and `""`
are falsy. -/
def truthyStr (v : Option String) : Bool :=
  match v with
  | none => false
  | some s => !(s == "")

/-- What the agent route returns as `suggestedVariant`: either the mock
suggestion or the parsed AI object passed through. -/
inductive AgentSuggestionOut where
  | mock (s : SuggestedVariant)
  | fromAI (p : ParsedSuggestion)
deriving Repr, DecidableEq

/-- The agent route's success envelope `{ok: true, stats, suggestedVariant,
aiUsed, aiError}`. -/
structure AgentOk where
  stats : List SimpleStats
  suggestedVariant : AgentSuggestionOut
  aiUsed : String
  aiError : Option String
deriving Repr, DecidableEq

/-- `POST` of `src/app/api/agent/route.ts` (lines 96–237), after the event
read: 400 on an empty window; otherwise aggregate, then use the AI value
only when all four checked fields are truthy, falling back to the mock
suggestion on every AI-path failure. `Except.error` carries the HTTP status
and error string of the `{ok: false}` envelope. -/
def agentRoute (events : List AnalyticsEvent)
    (outcome : AIOutcome ParsedSuggestion) : Except (ℕ × String) AgentOk :=
  if events = [] then .error (400, "Not enough events yet.")
  else
    let stats := agentStats events
    match outcome with
    | .noKey =>
        .ok ⟨stats, .mock (buildMockSuggestion stats), "mock",
          some "Missing GEMINI_API_KEY, using mock heuristic."⟩
    | .callFailed msg =>
        .ok ⟨stats, .mock (buildMockSuggestion stats), "mock", some msg⟩
    | .badParse msg =>
        .ok ⟨stats, .mock (buildMockSuggestion stats), "mock", some msg⟩
    | .parsed p =>
        if truthyStr p.heroTitle && truthyStr p.heroSubtitle &&
            truthyStr p.primaryCta && truthyStr p.secondaryCta then
          .ok ⟨stats, .fromAI p, "gemini", none⟩
        else
          .ok ⟨stats, .mock (buildMockSuggestion stats), "mock",
            some "Gemini returned incomplete JSON, used mock heuristic."⟩

/-- The landing-agent route's parsed AI response: cast unvalidated
(`spec = parsed as LandingPageSpec`), so every field may be absent. -/
structure RawLandingSpec where
  hero : Option LandingHero
  system : Option LandingSystem
  pillars : Option (List LandingPillar)
  stackPoints : Option (List String)
  editCards : Option (List LandingCard)
deriving Repr, DecidableEq

/-- What the landing-agent route returns as `spec`. -/
inductive LandingSpecOut where
  | fromAI (r : RawLandingSpec)
  | fromFallback (s : LandingPageSpec)
deriving Repr, DecidableEq

/-- The landing-agent route's success envelope `{ok: true, stats, spec,
aiUsed, aiError}`. -/
structure LandingOk where
  stats : List SimpleStats
  spec : LandingSpecOut
  aiUsed : String
  aiError : Option String
deriving Repr, DecidableEq

/-- `POST` of the landing-agent route (unnamed file, lines 136–272): same
aggregation as the agent route; a parsed response is returned **without any
field validation**; every failure path calls `buildFallbackSpec stats`,
which sorts `stats` in place, so the response's `stats` array is the sorted
one on those paths. -/
def landingAgentRoute (events : List AnalyticsEvent)
    (outcome : AIOutcome RawLandingSpec) : Except (ℕ × String) LandingOk :=
  if events = [] then .error (400, "Not enough events yet.")
  else
    let stats := agentStats events
    match outcome with
    | .parsed r => .ok ⟨stats, .fromAI r, "gemini", none⟩
    | .noKey =>
        .ok ⟨sortByScore8Desc stats, .fromFallback (buildFallbackSpec stats),
          "fallback", some "Missing GEMINI_API_KEY"⟩
    | .callFailed msg =>
        .ok ⟨sortByScore8Desc stats, .fromFallback (buildFallbackSpec stats),
          "fallback", some msg⟩
    | .badParse msg =>
        .ok ⟨sortByScore8Desc stats, .fromFallback (buildFallbackSpec stats),
          "fallback", some msg⟩

/-- Persona-page AI boundary: the route only inspects `personaPage.slug`. -/
inductive PersonaAI where
  | callFailed (msg : String)
  | badParse (msg : String)
  | parsed (slug : Option String)
deriving Repr, DecidableEq

/-- Persona-page success envelope (the route also echoes the saved page;
only the slug matters to the claims). -/
structure PersonaOk where
  slug : String
deriving Repr, DecidableEq

/-- `POST` of the persona-page route (unnamed file, lines 35–226): 400 on an
empty window; **500, not fallback, when the API key is missing**; call and
parse errors reach the outer catch and become 500 responses; a falsy `slug`
is a 500 as well. There is no fallback generator on this route. -/
def personaPageRoute (events : List AnalyticsEvent) (apiKey : Option String)
    (outcome : PersonaAI) : Except (ℕ × String) PersonaOk :=
  if events = [] then .error (400, "Not enough data to build personas yet.")
  else
    match apiKey with
    | none => .error (500, "Missing GEMINI_API_KEY")
    | some _ =>
        match outcome with
        | .callFailed msg => .error (500, msg)
        | .badParse msg => .error (500, msg)
        | .parsed slug =>
            match slug with
            | none => .error (500, "Model did not return a slug")
            | some s =>
                if s = "" then .error (500, "Model did not return a slug")
                else .ok ⟨s⟩

/-- `POST` of `src/app/api/landing-page/route.ts` (lines 34–202): the same
shape as the persona-page route — missing key and AI failures are 500
responses, never a fallback. -/
def landingPageRoute (events : List AnalyticsEvent) (apiKey : Option String)
    (outcome : PersonaAI) : Except (ℕ × String) PersonaOk :=
  if events = [] then .error (400, "Not enough data to build a landing page yet.")
  else
    match apiKey with
    | none => .error (500, "Missing GEMINI_API_KEY")
    | some _ =>
        match outcome with
        | .callFailed msg => .error (500, msg)
        | .badParse msg => .error (500, msg)
        | .parsed slug =>
            match slug with
            | none => .error (500, "Model did not return a slug")
            | some s =>
                if s = "" then .error (500, "Model did not return a slug")
                else .ok ⟨s⟩

/-! ## Variant promotion (`promoteLastSavedVariant`, unnamed dashboard file
lines 235–264) -/

/-- A document of the `variants` collection: store-assigned id plus status
(the other fields play no role in promotion). Firestore document ids within
one collection are unique. -/
structure VariantDoc where
  id : String
  status : String
deriving Repr, DecidableEq

/-- The promotion batch: one `writeBatch` updating **every** document of the
collection — the target to `"live"`, all others to `"archived"` — committed
atomically (`batch.commit()` is all-or-nothing), which the model reflects by
being a single total function on the collection. -/
def promoteBatch (docs : List VariantDoc) (target : String) : List VariantDoc :=
  docs.map (fun d => { d with status := if d.id = target then "live" else "archived" })

/-! ## Spec-side definitions (written from the spec's words, for refinement
comparison with the code-side definitions above) -/

/-- From the spec: the naive two-term running average
`newAvg = (oldAvg + newValue) / 2`, starting from the first value. -/
def specRunningAvg (vs : List ℚ) : Option ℚ :=
  vs.foldl (fun acc v =>
    match acc with
    | none => some v
    | some a => some ((a + v) / 2)) none

/-- The numeric scroll values of one session, in event order. -/
def sessionScrollVals (events : List AnalyticsEvent) (sid : String) : List ℚ :=
  ((events.filter (fun e => e.sessionId = sid)).filter
      (fun e => e.eventType = "scroll")).filterMap
    (fun e => e.scrollPercent.bind numValue)

/-- The click events of one session. -/
def sessionClickCount (events : List AnalyticsEvent) (sid : String) : ℕ :=
  ((events.filter (fun e => e.sessionId = sid)).filter
      (fun e => e.eventType = "click")).length

/-- From the spec (claim C6): the mean taken **only over the numeric**
`scrollPercent` values of a variant's scroll events, for the agent route's
variant buckets. -/
def specNumericOnlyMean (events : List AnalyticsEvent) (vid : String) : Option ℚ :=
  let vals := ((events.filter (fun e => jsOrUnknown e.variantId = vid)).filter
      (fun e => e.eventType = "scroll")).filterMap
    (fun e => e.scrollPercent.bind numValue)
  if vals = [] then none else some (vals.sum / (vals.length : ℚ))

/-- From the spec (claim C1): the winner under the claimed weight-2 scoring
rule `score = avgScroll + 2 * clicks`, first maximum winning. -/
def specW2Winner (stats : List SimpleStats) : Option String :=
  ((stats.insertionSort (fun a b =>
      b.avgScroll + 2 * (b.clicks : ℚ) ≤ a.avgScroll + 2 * (a.clicks : ℚ))).head?).map
    (·.variantId)

/-! ## Derived projections used to state theorems -/

/-- The sequence of coerced scroll values the agent route pushes while
scanning a list of events (in order): scroll events contribute their
`Number(scrollPercent ?? 0)` value unless it is NaN. -/
def agentScrollListOf (evs : List AnalyticsEvent) : List ℚ :=
  evs.filterMap (fun e => if e.eventType = "scroll" then agentScrollVal e else none)

/-- Click events in a list of events. -/
def clickCountOf (evs : List AnalyticsEvent) : ℕ :=
  (evs.filter (fun e => e.eventType = "click")).length

/-- The events the agent route attributes to a given variant key. -/
def agentVariantEvents (events : List AnalyticsEvent) (vid : String) :
    List AnalyticsEvent :=
  events.filter (fun e => jsOrUnknown e.variantId = vid)

/-- The events of one session, in order. -/
def sessionEvents (events : List AnalyticsEvent) (sid : String) :
    List AnalyticsEvent :=
  events.filter (fun e => e.sessionId = sid)

/-! ## Example inputs -/

/-- The spec's end-to-end example window (§8): two A scrolls (40, 60), one A
click, one B scroll (90). Session ids are not constrained by the example;
three distinct visitors are used. -/
def exampleEvents : List AnalyticsEvent :=
  [⟨"s1", "scroll", some (.jnum 40), some "A"⟩,
   ⟨"s2", "scroll", some (.jnum 60), some "A"⟩,
   ⟨"s1", "click", none, some "A"⟩,
   ⟨"s3", "scroll", some (.jnum 90), some "B"⟩]

/-- A one-click event window for variant A (no scroll events at all). -/
def clickOnlyEvents : List AnalyticsEvent :=
  [⟨"s1", "click", none, some "A"⟩]

/-- A window whose second scroll event has no `scrollPercent` field. -/
def mixedScrollEvents : List AnalyticsEvent :=
  [⟨"s1", "scroll", some (.jnum 100), some "A"⟩,
   ⟨"s2", "scroll", none, some "A"⟩]

/-- A window where variant B out-scores variant A under the weight-8 rule
while appearing second in insertion order. -/
def flipEvents : List AnalyticsEvent :=
  [⟨"s1", "scroll", some (.jnum 5), some "A"⟩,
   ⟨"s2", "click", none, some "B"⟩]

/-- An AI suggestion object with every field absent. -/
def emptyParsedSuggestion : ParsedSuggestion := ⟨none, none, none, none, none, none⟩

/-- An AI landing-spec object with every field absent (in particular no
`hero`, hence no `hero.title`). -/
def emptyRawLandingSpec : RawLandingSpec := ⟨none, none, none, none, none⟩

deriving instance DecidableEq for Except

instance : IsTrans SimpleStats (fun a b => score8 b ≤ score8 a) :=
  ⟨fun _ _ _ h1 h2 => le_trans h2 h1⟩

instance : IsTotal SimpleStats (fun a b => score8 b ≤ score8 a) :=
  ⟨fun a b => le_total (score8 b) (score8 a)⟩

/-! ## Association-list lemmas -/

theorem getVal_append {α : Type} (m l : List (String × α)) (k : String) :
    getVal (m ++ l) k =
      match getVal m k with
      | some v => some v
      | none => getVal l k := by
  induction m with
  | nil => simp [getVal]
  | cons p rest ih =>
      by_cases h : p.1 = k
      · simp [getVal, h]
      · simp [getVal, h, ih]

theorem getVal_updVal {α : Type} (m : List (String × α)) (k k' : String) (f : α → α) :
    getVal (updVal m k f) k' =
      if k' = k then (getVal m k).map f else getVal m k' := by
  induction m with
  | nil => simp [getVal, updVal]
  | cons p rest ih =>
      simp only [updVal, List.map_cons]
      by_cases h1 : p.1 = k
      · by_cases h2 : k' = k
        · subst h2
          simp [getVal, h1]
        · have h3 : p.1 ≠ k' := fun hh => h2 (hh ▸ h1 ▸ rfl)
          simp only [updVal] at ih
          simp [getVal, h1, h2, h3, ih, Ne.symm h2]
      · by_cases h2 : k' = k
        · subst h2
          have h3 : p.1 ≠ k' := h1
          simp only [updVal] at ih
          simp [getVal, h1, h3, ih]
        · simp only [updVal] at ih
          by_cases h3 : p.1 = k'
          · simp [getVal, h1, h2, h3]
          · simp [getVal, h1, h2, h3, ih]

theorem getVal_ensureKey {α : Type} (m : List (String × α)) (k k' : String) (v : α) :
    getVal (ensureKey m k v) k' =
      if k' = k then some ((getVal m k).getD v) else getVal m k' := by
  unfold ensureKey
  cases h : getVal m k with
  | some a =>
      by_cases h2 : k' = k
      · subst h2; simp [h]
      · simp [h2]
  | none =>
      rw [getVal_append]
      by_cases h2 : k' = k
      · subst h2; simp [h, getVal]
      · cases h3 : getVal m k' <;> simp [h2, h3, getVal, Ne.symm h2]

theorem getVal_stepAssoc {α : Type} (key : AnalyticsEvent → String)
    (upd : α → AnalyticsEvent → α) (v₀ : String → α)
    (m : List (String × α)) (e : AnalyticsEvent) (k : String) :
    getVal (stepAssoc key upd v₀ m e) k =
      if k = key e then some (upd ((getVal m k).getD (v₀ k)) e) else getVal m k := by
  unfold stepAssoc
  simp only [getVal_updVal, getVal_ensureKey]
  by_cases h : k = key e
  · subst h; simp
  · simp [h]

theorem getVal_foldl_stepAssoc {α : Type} (key : AnalyticsEvent → String)
    (upd : α → AnalyticsEvent → α) (v₀ : String → α) :
    ∀ (events : List AnalyticsEvent) (m : List (String × α)) (k : String),
    getVal (events.foldl (stepAssoc key upd v₀) m) k =
      match getVal m k with
      | some a => some ((events.filter (fun e => key e = k)).foldl upd a)
      | none =>
          if events.filter (fun e => key e = k) = [] then none
          else some ((events.filter (fun e => key e = k)).foldl upd (v₀ k)) := by
  intro events
  induction events with
  | nil =>
      intro m k
      cases h : getVal m k <;> simp [h]
  | cons e rest ih =>
      intro m k
      rw [List.foldl_cons, ih, getVal_stepAssoc]
      by_cases hk : k = key e
      · have hk' : key e = k := hk.symm
        rw [List.filter_cons_of_pos (by simp [hk'])]
        cases h : getVal m k with
        | none => simp [h, hk]
        | some a => simp [h, hk]
      · have hk' : key e ≠ k := fun hh => hk hh.symm
        rw [List.filter_cons_of_neg (by simp [hk'])]
        simp [hk]

/-- The content of the final assoc list, per key: `none` when no event maps
to the key, otherwise the fold of the per-event update over exactly the
events of that key, starting from that key's initial value. -/
theorem getVal_foldAssoc {α : Type} (key : AnalyticsEvent → String)
    (upd : α → AnalyticsEvent → α) (v₀ : String → α)
    (events : List AnalyticsEvent) (k : String) :
    getVal (foldAssoc key upd v₀ events) k =
      if events.filter (fun e => key e = k) = [] then none
      else some ((events.filter (fun e => key e = k)).foldl upd (v₀ k)) := by
  unfold foldAssoc
  rw [getVal_foldl_stepAssoc]
  simp [getVal]

theorem getVal_mem {α : Type} :
    ∀ (m : List (String × α)) (k : String) (v : α),
    getVal m k = some v → (k, v) ∈ m := by
  intro m
  induction m with
  | nil => intro k v h; simp [getVal] at h
  | cons p rest ih =>
      intro k v h
      obtain ⟨pk, pv⟩ := p
      by_cases h1 : pk = k
      · simp only [getVal, h1, if_pos] at h
        simp only [Option.some.injEq] at h
        subst h1
        subst h
        exact List.mem_cons_self _ _
      · simp only [getVal, h1, if_neg, if_false] at h
        exact List.mem_cons_of_mem _ (ih k v h)

/-! ## Fold characterisations -/

/-- Folding the session loop body over any event list: the running average
is the fold of `scrollUpd` over the numeric scroll values, and clicks are
counted once per click event. -/
theorem foldl_applySessionEvent :
    ∀ (evs : List AnalyticsEvent) (sid : String) (a : Option ℚ) (c : ℕ),
    evs.foldl applySessionEvent ⟨sid, a, c⟩ =
      ⟨sid, (numScrollsOf (scrollEventsOf evs)).foldl scrollUpd a, c + clickCountOf evs⟩ := by
  intro evs
  induction evs with
  | nil => intro sid a c; simp [numScrollsOf, scrollEventsOf, clickCountOf]
  | cons e rest ih =>
      intro sid a c
      rw [List.foldl_cons]
      by_cases hs : e.eventType = "scroll"
      · have hnc : ¬e.eventType = "click" := by rw [hs]; decide
        cases hv : e.scrollPercent.bind numValue with
        | some v =>
            have happ : applySessionEvent ⟨sid, a, c⟩ e = ⟨sid, scrollUpd a v, c⟩ := by
              simp [applySessionEvent, hs, hnc, hv]
            rw [happ, ih]
            simp [numScrollsOf, scrollEventsOf, clickCountOf, hs, hnc, hv]
        | none =>
            have happ : applySessionEvent ⟨sid, a, c⟩ e = ⟨sid, a, c⟩ := by
              simp [applySessionEvent, hs, hnc, hv]
            rw [happ, ih]
            simp [numScrollsOf, scrollEventsOf, clickCountOf, hs, hnc, hv]
      · by_cases hc : e.eventType = "click"
        · have happ : applySessionEvent ⟨sid, a, c⟩ e = ⟨sid, a, c + 1⟩ := by
            simp [applySessionEvent, hs, hc]
          rw [happ, ih]
          simp only [scrollEventsOf, clickCountOf, List.filter_cons]
          simp [hs, hc]
          omega
        · have happ : applySessionEvent ⟨sid, a, c⟩ e = ⟨sid, a, c⟩ := by
            simp [applySessionEvent, hs, hc]
          rw [happ, ih]
          simp [numScrollsOf, scrollEventsOf, clickCountOf, hs, hc]

/-- Folding the agent-route loop body over any event list: scroll events
append their coerced value (unless NaN), clicks and the total count are
incremented. -/
theorem foldl_applyAgentEvent :
    ∀ (evs : List AnalyticsEvent) (sc : List ℚ) (ck ct : ℕ),
    evs.foldl applyAgentEvent ⟨sc, ck, ct⟩ =
      ⟨sc ++ agentScrollListOf evs, ck + clickCountOf evs, ct + evs.length⟩ := by
  intro evs
  induction evs with
  | nil => intro sc ck ct; simp [agentScrollListOf, clickCountOf]
  | cons e rest ih =>
      intro sc ck ct
      rw [List.foldl_cons]
      by_cases hs : e.eventType = "scroll"
      · have hnc : ¬e.eventType = "click" := by rw [hs]; decide
        cases hv : agentScrollVal e with
        | some v =>
            have happ : applyAgentEvent ⟨sc, ck, ct⟩ e = ⟨sc ++ [v], ck, ct + 1⟩ := by
              simp [applyAgentEvent, hs, hnc, hv]
            rw [happ, ih]
            simp only [agentScrollListOf, clickCountOf, List.filterMap_cons, List.filter_cons]
            simp [hs, hnc, hv]
            omega
        | none =>
            have happ : applyAgentEvent ⟨sc, ck, ct⟩ e = ⟨sc, ck, ct + 1⟩ := by
              simp [applyAgentEvent, hs, hnc, hv]
            rw [happ, ih]
            simp only [agentScrollListOf, clickCountOf, List.filterMap_cons, List.filter_cons]
            simp [hs, hnc, hv]
            omega
      · by_cases hc : e.eventType = "click"
        · have happ : applyAgentEvent ⟨sc, ck, ct⟩ e = ⟨sc, ck + 1, ct + 1⟩ := by
            simp [applyAgentEvent, hs, hc]
          rw [happ, ih]
          simp only [agentScrollListOf, clickCountOf, List.filterMap_cons, List.filter_cons]
          simp [hs, hc]
          omega
        · have happ : applyAgentEvent ⟨sc, ck, ct⟩ e = ⟨sc, ck, ct + 1⟩ := by
            simp [applyAgentEvent, hs, hc]
          rw [happ, ih]
          simp only [agentScrollListOf, clickCountOf, List.filterMap_cons, List.filter_cons]
          simp [hs, hc]
          omega

/-- Per-variant content of the agent route's `byVariant` object. -/
theorem getVal_agentByVariant (events : List AnalyticsEvent) (vid : String) :
    getVal (agentByVariant events) vid =
      if agentVariantEvents events vid = [] then none
      else
        some ⟨agentScrollListOf (agentVariantEvents events vid),
          clickCountOf (agentVariantEvents events vid),
          (agentVariantEvents events vid).length⟩ := by
  unfold agentByVariant agentVariantEvents
  rw [getVal_foldAssoc]
  by_cases h : events.filter (fun e => jsOrUnknown e.variantId = vid) = []
  · simp [h]
  · simp only [h, if_neg, if_false]
    rw [foldl_applyAgentEvent]
    simp

/-- Per-session content of `bySession`. -/
theorem getVal_bySession (events : List AnalyticsEvent) (sid : String) :
    getVal (bySession events) sid =
      if sessionEvents events sid = [] then none
      else
        some ⟨sid, (numScrollsOf (scrollEventsOf (sessionEvents events sid))).foldl scrollUpd none,
          clickCountOf (sessionEvents events sid)⟩ := by
  unfold bySession sessionEvents
  rw [getVal_foldAssoc]
  by_cases h : events.filter (fun e => e.sessionId = sid) = []
  · simp [h]
  · simp only [h, if_neg, if_false]
    rw [foldl_applySessionEvent]
    simp

/-- Claim C8: the per-session aggregation used by the landing and persona
generators computes, for each sessionId, a running scroll average with the
two-term rule `newAvg = (oldAvg + newValue) / 2` applied per numeric scroll
event (starting from the first value), and a running click count
incremented once per click event; a session appears exactly when one of its
events does. -/
theorem c8_theorem (events : List AnalyticsEvent) (sid : String) :
    getVal (bySession events) sid =
      if sid ∈ events.map (·.sessionId) then
        some ⟨sid, specRunningAvg (sessionScrollVals events sid),
          sessionClickCount events sid⟩
      else none := by
  rw [getVal_bySession]
  by_cases hmem : sid ∈ events.map (·.sessionId)
  · have hne : ¬sessionEvents events sid = [] := by
      unfold sessionEvents
      rcases List.mem_map.mp hmem with ⟨e, he, hes⟩
      intro hnil
      rw [List.filter_eq_nil_iff] at hnil
      exact hnil e he (by simp [hes])
    rw [if_neg hne, if_pos hmem]
    rfl
  · have hnil : sessionEvents events sid = [] := by
      unfold sessionEvents
      rw [List.filter_eq_nil_iff]
      intro e he
      simp only [decide_eq_true_eq]
      intro hes
      exact hmem (List.mem_map.mpr ⟨e, he, hes⟩)
    rw [if_pos hnil, if_neg hmem]

/-! ## Promotion -/

theorem promote_filter_of_not_mem (docs : List VariantDoc) (target : String)
    (h : ∀ d ∈ docs, d.id ≠ target) :
    (promoteBatch docs target).filter (fun d => d.status = "live") = [] := by
  unfold promoteBatch
  rw [List.filter_eq_nil_iff]
  intro x hx
  rcases List.mem_map.mp hx with ⟨d, hd, hfd⟩
  have hne : ¬d.id = target := h d hd
  simp only [← hfd, hne, if_neg, if_false]
  decide

theorem promote_live_ids :
    ∀ (docs : List VariantDoc) (target : String),
    (docs.map (·.id)).Nodup → target ∈ docs.map (·.id) →
    ((promoteBatch docs target).filter (fun d => d.status = "live")).map (·.id) =
      [target] := by
  intro docs target
  induction docs with
  | nil => intro _ hmem; simp at hmem
  | cons d rest ih =>
      intro hnd hmem
      simp only [List.map_cons, List.nodup_cons] at hnd
      obtain ⟨hnotin, hndrest⟩ := hnd
      by_cases hid : d.id = target
      · have hrest : ∀ x ∈ rest, x.id ≠ target := by
          intro x hx hcontra
          exact hnotin (hid ▸ hcontra ▸ List.mem_map.mpr ⟨x, hx, rfl⟩)
        have hfr := promote_filter_of_not_mem rest target hrest
        unfold promoteBatch at hfr ⊢
        simp only [List.map_cons, List.filter_cons, hid, if_pos]
        simp only [hfr]
        simp [hid]
      · have hmem' : target ∈ rest.map (·.id) := by
          rcases List.mem_cons.mp hmem with h | h
          · exact absurd h.symm hid
          · exact h
        have hihr := ih hndrest hmem'
        unfold promoteBatch at hihr ⊢
        simp only [List.map_cons, List.filter_cons, hid, if_neg, if_false]
        simpa using hihr

/-- Claim C2: after `promote(X)` on a collection containing `X`, the batch
leaves exactly one `"live"` document and its id is `X`; every document's
status is `"live"` or `"archived"`, and `"live"` holds exactly for `X`. The
batch is a single total function of the collection (one `writeBatch` /
`commit`), so no partial application is representable. -/
theorem c2_theorem (docs : List VariantDoc) (target : String)
    (hnd : (docs.map (·.id)).Nodup) (hmem : target ∈ docs.map (·.id)) :
    ((promoteBatch docs target).filter (fun d => d.status = "live")).map (·.id) =
      [target]
    ∧ (∀ d ∈ promoteBatch docs target, d.status = "live" ∨ d.status = "archived")
    ∧ (∀ d ∈ promoteBatch docs target, (d.status = "live" ↔ d.id = target)) := by
  refine ⟨promote_live_ids docs target hnd hmem, ?_, ?_⟩
  · intro d hd
    rcases List.mem_map.mp hd with ⟨d0, _, hfd⟩
    by_cases h : d0.id = target
    · left; rw [← hfd]; simp [h]
    · right; rw [← hfd]; simp [h]
  · intro d hd
    rcases List.mem_map.mp hd with ⟨d0, _, hfd⟩
    by_cases h : d0.id = target
    · rw [← hfd]; simp [h]
    · rw [← hfd]; simp [h]

/-- Witness for C2 at a concrete three-document collection. -/
theorem c2_witness :
    (([⟨"v1", "testing"⟩, ⟨"v2", "live"⟩, ⟨"v3", "archived"⟩] :
        List VariantDoc).map (·.id)).Nodup
    ∧ "v2" ∈ ([⟨"v1", "testing"⟩, ⟨"v2", "live"⟩, ⟨"v3", "archived"⟩] :
        List VariantDoc).map (·.id)
    ∧ (((promoteBatch [⟨"v1", "testing"⟩, ⟨"v2", "live"⟩, ⟨"v3", "archived"⟩]
            "v2").filter (fun d => d.status = "live")).map (·.id) = ["v2"]
        ∧ (∀ d ∈ promoteBatch [⟨"v1", "testing"⟩, ⟨"v2", "live"⟩, ⟨"v3", "archived"⟩]
              "v2", d.status = "live" ∨ d.status = "archived")
        ∧ (∀ d ∈ promoteBatch [⟨"v1", "testing"⟩, ⟨"v2", "live"⟩, ⟨"v3", "archived"⟩]
              "v2", (d.status = "live" ↔ d.id = "v2"))) :=
  ⟨by decide, by decide, c2_theorem _ _ (by decide) (by decide)⟩

/-! ## C1 — the end-to-end example -/

/-- Counterexample to C1 as stated: the claim describes the Heuristic Scorer
as `score = avgScroll + W * clicks` with `W = 2`, but `buildMockSuggestion`
uses `W = 10`; at stats A: avgScroll 0 / 1 click, B: avgScroll 5 / 0 clicks,
the code (10 > 5) picks A while the claimed weight-2 rule (5 > 2) picks B. -/
theorem c1_counterexample :
    (buildMockSuggestion [⟨"A", 0, 1⟩, ⟨"B", 5, 0⟩]).fromVariant = "A"
    ∧ specW2Winner [⟨"A", 0, 1⟩, ⟨"B", 5, 0⟩] = some "B"
    ∧ ("A" : String) ≠ "B" := by
  refine ⟨?_, ?_, by decide⟩
  · norm_num [buildMockSuggestion, withScore10, sortByScoreDesc,
      List.insertionSort, List.orderedInsert]
  · norm_num [specW2Winner, List.insertionSort, List.orderedInsert]

/-- Claim C1 (amended: the agent's heuristic weight is 10, not 2; the
selected winner is unchanged): on the spec's example window the Aggregator
reports A: avg 50 / 1 click / 3 events, B: avg 90 / 0 clicks / 1 event, the
agent route's stats are A: (50, 1), B: (90, 0), and `buildMockSuggestion`
(score = avgScroll + 10 × clicks) selects B as `fromVariant`. -/
theorem c1_theorem :
    computeVariantStats exampleEvents =
      [⟨"A", 3, 2, 2, some 50, 1⟩, ⟨"B", 1, 1, 1, some 90, 0⟩]
    ∧ agentStats exampleEvents = [⟨"A", 50, 1⟩, ⟨"B", 90, 0⟩]
    ∧ (buildMockSuggestion (agentStats exampleEvents)).fromVariant = "B" := by
  have hA : statsFor exampleEvents "A" = ⟨"A", 3, 2, 2, some 50, 1⟩ := by
    have h0 : statsFor exampleEvents "A" = ⟨"A", 3, 2, 2, mkAvg [40, 60], 1⟩ := rfl
    rw [h0]
    have havg : mkAvg [40, 60] = some 50 := by norm_num [mkAvg]
    rw [havg]
  have hB : statsFor exampleEvents "B" = ⟨"B", 1, 1, 1, some 90, 0⟩ := by
    have h0 : statsFor exampleEvents "B" = ⟨"B", 1, 1, 1, mkAvg [90], 0⟩ := rfl
    rw [h0]
    have havg : mkAvg [90] = some 90 := by norm_num [mkAvg]
    rw [havg]
  have hstats : agentStats exampleEvents = [⟨"A", 50, 1⟩, ⟨"B", 90, 0⟩] := by
    have h : agentStats exampleEvents =
        [aggToSimple "A" ⟨[40, 60], 1, 3⟩, aggToSimple "B" ⟨[90], 0, 1⟩] := rfl
    rw [h]
    norm_num [aggToSimple]
  refine ⟨?_, hstats, ?_⟩
  · have h : computeVariantStats exampleEvents =
        [statsFor exampleEvents "A", statsFor exampleEvents "B"] := rfl
    rw [h, hA, hB]
  · rw [hstats]
    norm_num [buildMockSuggestion, withScore10, sortByScoreDesc,
      List.insertionSort, List.orderedInsert]

/-! ## C9 — degenerate input to the fallback generators -/

/-- Claim C9: on an empty statistics list `buildMockSuggestion` returns the
fixed neutral template with `meta.basedOn = null` and every text field
non-empty (as a total function it cannot raise), and the landing-agent
fallback's default winner is the fixed A/50/5 record. -/
theorem c9_theorem :
    buildMockSuggestion [] =
      ⟨"A", "SELF-EVOLVING WEBSITE // BUILD C",
        "New variant evolved from the current winner, tuned to push visitors deeper into the page and increase interaction based on live analytics.",
        "▶ Deploy Build C", "◎ Inspect experiment logs", "AGENT MODE • EVOLUTION",
        ⟨none, "Mock agent: assumes that high scroll + clicks correlate with better engagement."⟩⟩
    ∧ (buildMockSuggestion []).meta.basedOn = none
    ∧ (buildMockSuggestion []).fromVariant ≠ ""
    ∧ (buildMockSuggestion []).heroTitle ≠ ""
    ∧ (buildMockSuggestion []).heroSubtitle ≠ ""
    ∧ (buildMockSuggestion []).primaryCta ≠ ""
    ∧ (buildMockSuggestion []).secondaryCta ≠ ""
    ∧ (buildMockSuggestion []).badge ≠ ""
    ∧ fallbackWinner [] = ⟨"A", 50, 5⟩ := by
  decide

/-! ## C3 — AI-path failures -/

/-- Counterexample to C3 as stated: the persona-page and landing-page
generation routes do **not** fall back on a missing API credential — with a
non-empty event window they propagate a 500 failure envelope
`{ok: false, error: "Missing GEMINI_API_KEY"}` to the caller. -/
theorem c3_counterexample :
    personaPageRoute clickOnlyEvents none (.parsed (some "persona-x")) =
      .error (500, "Missing GEMINI_API_KEY")
    ∧ landingPageRoute clickOnlyEvents none (.parsed (some "build-c")) =
      .error (500, "Missing GEMINI_API_KEY") := by
  decide

/-- Claim C3 (amended: restricted to the agent and landing-agent routes; the
persona-page and landing-page routes have no fallback and return 500
failure envelopes on AI-path failures): on a non-empty window, missing
credential, failed call, unparsable response, and — for the agent route — a
parsed response failing validation all return the deterministic fallback
output in a success envelope with provenance fields, never a failure. -/
theorem c3_theorem (events : List AnalyticsEvent) (msg : String)
    (p : ParsedSuggestion) (h : events ≠ []) :
    agentRoute events .noKey =
      .ok ⟨agentStats events, .mock (buildMockSuggestion (agentStats events)), "mock",
        some "Missing GEMINI_API_KEY, using mock heuristic."⟩
    ∧ agentRoute events (.callFailed msg) =
      .ok ⟨agentStats events, .mock (buildMockSuggestion (agentStats events)), "mock",
        some msg⟩
    ∧ agentRoute events (.badParse msg) =
      .ok ⟨agentStats events, .mock (buildMockSuggestion (agentStats events)), "mock",
        some msg⟩
    ∧ (truthyStr p.heroTitle = false →
        agentRoute events (.parsed p) =
          .ok ⟨agentStats events, .mock (buildMockSuggestion (agentStats events)),
            "mock", some "Gemini returned incomplete JSON, used mock heuristic."⟩)
    ∧ landingAgentRoute events .noKey =
      .ok ⟨sortByScore8Desc (agentStats events),
        .fromFallback (buildFallbackSpec (agentStats events)), "fallback",
        some "Missing GEMINI_API_KEY"⟩
    ∧ landingAgentRoute events (.callFailed msg) =
      .ok ⟨sortByScore8Desc (agentStats events),
        .fromFallback (buildFallbackSpec (agentStats events)), "fallback", some msg⟩
    ∧ landingAgentRoute events (.badParse msg) =
      .ok ⟨sortByScore8Desc (agentStats events),
        .fromFallback (buildFallbackSpec (agentStats events)), "fallback", some msg⟩ := by
  refine ⟨?_, ?_, ?_, ?_, ?_, ?_, ?_⟩ <;>
    first
      | (intro h2; simp [agentRoute, h, h2])
      | simp [agentRoute, landingAgentRoute, h]

/-- Witness for C3 at a concrete window, error message and parsed object. -/
theorem c3_witness :
    clickOnlyEvents ≠ []
    ∧ (agentRoute clickOnlyEvents .noKey =
        .ok ⟨agentStats clickOnlyEvents,
          .mock (buildMockSuggestion (agentStats clickOnlyEvents)), "mock",
          some "Missing GEMINI_API_KEY, using mock heuristic."⟩
      ∧ agentRoute clickOnlyEvents (.callFailed "Gemini call failed") =
        .ok ⟨agentStats clickOnlyEvents,
          .mock (buildMockSuggestion (agentStats clickOnlyEvents)), "mock",
          some "Gemini call failed"⟩
      ∧ agentRoute clickOnlyEvents (.badParse "Gemini call failed") =
        .ok ⟨agentStats clickOnlyEvents,
          .mock (buildMockSuggestion (agentStats clickOnlyEvents)), "mock",
          some "Gemini call failed"⟩
      ∧ (truthyStr emptyParsedSuggestion.heroTitle = false →
          agentRoute clickOnlyEvents (.parsed emptyParsedSuggestion) =
            .ok ⟨agentStats clickOnlyEvents,
              .mock (buildMockSuggestion (agentStats clickOnlyEvents)), "mock",
              some "Gemini returned incomplete JSON, used mock heuristic."⟩)
      ∧ landingAgentRoute clickOnlyEvents .noKey =
        .ok ⟨sortByScore8Desc (agentStats clickOnlyEvents),
          .fromFallback (buildFallbackSpec (agentStats clickOnlyEvents)), "fallback",
          some "Missing GEMINI_API_KEY"⟩
      ∧ landingAgentRoute clickOnlyEvents (.callFailed "Gemini call failed") =
        .ok ⟨sortByScore8Desc (agentStats clickOnlyEvents),
          .fromFallback (buildFallbackSpec (agentStats clickOnlyEvents)), "fallback",
          some "Gemini call failed"⟩
      ∧ landingAgentRoute clickOnlyEvents (.badParse "Gemini call failed") =
        .ok ⟨sortByScore8Desc (agentStats clickOnlyEvents),
          .fromFallback (buildFallbackSpec (agentStats clickOnlyEvents)), "fallback",
          some "Gemini call failed"⟩) :=
  ⟨by decide, c3_theorem clickOnlyEvents "Gemini call failed" emptyParsedSuggestion
    (by decide)⟩

/-! ## C4 — null versus 0 average -/

/-- Counterexample to C4 as stated: in the agent route's per-variant
statistics, a variant with zero collected scroll values gets `avgScroll`
equal to the **number 0** (the field is not even nullable), not `null`:
one click event for A yields `avgScroll = 0`. -/
theorem c4_counterexample :
    getVal (agentByVariant clickOnlyEvents) "A" = some ⟨[], 1, 1⟩
    ∧ agentStats clickOnlyEvents = [⟨"A", 0, 1⟩]
    ∧ (agentStats clickOnlyEvents).map (·.avgScroll) = [0] := by
  decide

/-- Claim C4 (amended: the null-not-zero guarantee holds for the dashboard's
`avgScrollPercent`; the agent route's `avgScroll` is the plain number 0 for
a variant with zero collected scroll values): with no qualifying scroll
values the dashboard reports `null`, while the agent route's stats entry for
such a variant is present with `avgScroll = 0`. -/
theorem c4_theorem (events : List AnalyticsEvent) (vid : String) (agg : AgentAgg)
    (hdash : dashScrollVals events vid = [])
    (hget : getVal (agentByVariant events) vid = some agg)
    (hscr : agg.scrolls = []) :
    (statsFor events vid).avgScrollPercent = none
    ∧ aggToSimple vid agg ∈ agentStats events
    ∧ (aggToSimple vid agg).avgScroll = 0 := by
  refine ⟨?_, ?_, ?_⟩
  · unfold dashScrollVals at hdash
    unfold statsFor
    cases hve : variantEvents events vid with
    | nil => simp
    | cons e0 rest =>
        rw [hve] at hdash
        simp [hdash, mkAvg]
  · exact List.mem_map.mpr ⟨(vid, agg), getVal_mem _ _ _ hget, rfl⟩
  · simp [aggToSimple, hscr]

/-- Witness for C4: one click event for A — dashboard `null`, agent `0`. -/
theorem c4_witness :
    dashScrollVals clickOnlyEvents "A" = []
    ∧ getVal (agentByVariant clickOnlyEvents) "A" = some ⟨[], 1, 1⟩
    ∧ (⟨[], 1, 1⟩ : AgentAgg).scrolls = []
    ∧ ((statsFor clickOnlyEvents "A").avgScrollPercent = none
        ∧ aggToSimple "A" ⟨[], 1, 1⟩ ∈ agentStats clickOnlyEvents
        ∧ (aggToSimple "A" ⟨[], 1, 1⟩).avgScroll = 0) :=
  ⟨by decide, by decide, by decide,
    c4_theorem clickOnlyEvents "A" ⟨[], 1, 1⟩ (by decide) (by decide) (by decide)⟩

/-! ## C5 — missing versus unrecognized variant ids -/

/-- Counterexample to C5 as stated: an event whose `variantId` is present
but unrecognized (`"C"`) is **not** counted as belonging to `"A"` in the
full-stats computation — it is dropped from both buckets, so both A and B
report zero events. -/
theorem c5_counterexample :
    computeVariantStats [⟨"s1", "click", none, some "C"⟩] =
      [⟨"A", 0, 0, 0, none, 0⟩, ⟨"B", 0, 0, 0, none, 0⟩]
    ∧ (statsFor [⟨"s1", "click", none, some "C"⟩] "A").totalEvents = 0 := by
  decide

/-- Claim C5 (amended: only events with a **missing** `variantId` default
into bucket A; events with a present but unrecognized id are excluded from
the full-stats computation entirely; the event-level filtering view places
both kinds under "unknown"). -/
theorem c5_theorem (events : List AnalyticsEvent) (e1 e2 : AnalyticsEvent)
    (s : String)
    (h1 : e1 ∈ events) (hn : e1.variantId = none)
    (h2 : e2 ∈ events) (hs : e2.variantId = some s)
    (hA : s ≠ "A") (hB : s ≠ "B")
    (huA : jsToUpper s ≠ "A") (huB : jsToUpper s ≠ "B") :
    e1 ∈ variantEvents events "A"
    ∧ variantFilterOk "unknown" e1 = true
    ∧ e2 ∉ variantEvents events "A"
    ∧ e2 ∉ variantEvents events "B"
    ∧ variantFilterOk "unknown" e2 = true := by
  refine ⟨?_, ?_, ?_, ?_, ?_⟩
  · exact List.mem_filter.mpr ⟨h1, by simp [hn]⟩
  · have hget : e1.variantId.getD "unknown" = "unknown" := by simp [hn]
    simp [variantFilterOk, hget]
    decide
  · intro hmem
    have := (List.mem_filter.mp hmem).2
    simp [hs] at this
    exact hA this
  · intro hmem
    have := (List.mem_filter.mp hmem).2
    simp [hs] at this
    exact hB this
  · have hget : e2.variantId.getD "unknown" = s := by simp [hs]
    simp [variantFilterOk, hget, huA, huB]

/-- Witness for C5: a window with one missing-id event and one "C" event. -/
theorem c5_witness :
    (⟨"s1", "click", none, none⟩ : AnalyticsEvent) ∈
        ([⟨"s1", "click", none, none⟩, ⟨"s2", "click", none, some "C"⟩] :
          List AnalyticsEvent)
    ∧ (⟨"s1", "click", none, none⟩ : AnalyticsEvent).variantId = none
    ∧ (⟨"s2", "click", none, some "C"⟩ : AnalyticsEvent) ∈
        ([⟨"s1", "click", none, none⟩, ⟨"s2", "click", none, some "C"⟩] :
          List AnalyticsEvent)
    ∧ (⟨"s2", "click", none, some "C"⟩ : AnalyticsEvent).variantId = some "C"
    ∧ ("C" : String) ≠ "A" ∧ ("C" : String) ≠ "B"
    ∧ jsToUpper "C" ≠ "A" ∧ jsToUpper "C" ≠ "B"
    ∧ ((⟨"s1", "click", none, none⟩ : AnalyticsEvent) ∈
          variantEvents [⟨"s1", "click", none, none⟩, ⟨"s2", "click", none, some "C"⟩] "A"
        ∧ variantFilterOk "unknown" ⟨"s1", "click", none, none⟩ = true
        ∧ (⟨"s2", "click", none, some "C"⟩ : AnalyticsEvent) ∉
          variantEvents [⟨"s1", "click", none, none⟩, ⟨"s2", "click", none, some "C"⟩] "A"
        ∧ (⟨"s2", "click", none, some "C"⟩ : AnalyticsEvent) ∉
          variantEvents [⟨"s1", "click", none, none⟩, ⟨"s2", "click", none, some "C"⟩] "B"
        ∧ variantFilterOk "unknown" ⟨"s2", "click", none, some "C"⟩ = true) :=
  ⟨by decide, by decide, by decide, by decide, by decide, by decide, by decide,
    by decide,
    c5_theorem _ _ _ "C" (by decide) (by decide) (by decide) (by decide)
      (by decide) (by decide) (by decide) (by decide)⟩

/-! ## C6 — non-numeric scroll payloads -/

/-- Counterexample to C6 as stated: in the agent route, a scroll event with
a **missing** `scrollPercent` is not excluded — `?? 0` turns it into the
number 0 — so with one scroll of 100 and one field-less scroll the reported
average is 50, while the mean over only the numeric values is 100. -/
theorem c6_counterexample :
    agentStats mixedScrollEvents = [⟨"A", 50, 0⟩]
    ∧ specNumericOnlyMean mixedScrollEvents "A" = some 100 := by
  constructor
  · have h : agentStats mixedScrollEvents = [aggToSimple "A" ⟨[100, 0], 0, 2⟩] := rfl
    rw [h]
    norm_num [aggToSimple]
  · have h : specNumericOnlyMean mixedScrollEvents "A" =
        some (([100] : List ℚ).sum / (([100] : List ℚ).length : ℚ)) := rfl
    rw [h]
    norm_num

/-- Claim C6 (amended: the silent exclusion of non-number `scrollPercent`
values holds in the dashboard aggregation; the agent route instead coerces
`Number(scrollPercent ?? 0)` — missing and `null` become 0, and only values
coercing to NaN are excluded): the dashboard average is the mean of exactly
the number-typed values, the agent bucket's scroll list is exactly the
coerced non-NaN values of its scroll events, and a missing or null
`scrollPercent` coerces to 0. -/
theorem c6_theorem (events : List AnalyticsEvent) (vid : String) (agg : AgentAgg)
    (hget : getVal (agentByVariant events) vid = some agg)
    (e1 e2 : AnalyticsEvent)
    (h1 : e1.scrollPercent = none) (h2 : e2.scrollPercent = some .jnull) :
    (statsFor events vid).avgScrollPercent = mkAvg (dashScrollVals events vid)
    ∧ agg.scrolls = agentScrollListOf (agentVariantEvents events vid)
    ∧ agentScrollVal e1 = some 0
    ∧ agentScrollVal e2 = some 0 := by
  refine ⟨?_, ?_, ?_, ?_⟩
  · unfold statsFor dashScrollVals
    cases hve : variantEvents events vid with
    | nil => simp [scrollEventsOf, numScrollsOf, mkAvg]
    | cons e0 rest => simp
  · rw [getVal_agentByVariant] at hget
    by_cases hnil : agentVariantEvents events vid = []
    · rw [if_pos hnil] at hget
      exact absurd hget (by simp)
    · rw [if_neg hnil] at hget
      have := (Option.some.injEq _ _).mp hget
      rw [← this]
  · simp [agentScrollVal, coalesceNullish, jsToNumber, h1]
  · simp [agentScrollVal, coalesceNullish, jsToNumber, h2]

/-- Witness for C6 at the mixed window (100 and a missing field). -/
theorem c6_witness :
    getVal (agentByVariant mixedScrollEvents) "A" = some ⟨[100, 0], 0, 2⟩
    ∧ (⟨"s2", "scroll", none, some "A"⟩ : AnalyticsEvent).scrollPercent = none
    ∧ (⟨"s3", "scroll", some .jnull, some "A"⟩ : AnalyticsEvent).scrollPercent =
        some .jnull
    ∧ ((statsFor mixedScrollEvents "A").avgScrollPercent =
          mkAvg (dashScrollVals mixedScrollEvents "A")
        ∧ (⟨[100, 0], 0, 2⟩ : AgentAgg).scrolls =
          agentScrollListOf (agentVariantEvents mixedScrollEvents "A")
        ∧ agentScrollVal ⟨"s2", "scroll", none, some "A"⟩ = some 0
        ∧ agentScrollVal ⟨"s3", "scroll", some .jnull, some "A"⟩ = some 0) :=
  ⟨by decide, by decide, by decide,
    c6_theorem mixedScrollEvents "A" ⟨[100, 0], 0, 2⟩ (by decide) _ _
      (by decide) (by decide)⟩

/-! ## C7 — fence stripping and missing-field validation -/

/-- Counterexample to C7 as stated: the landing-agent route performs **no
field validation** — a parsed response with every field missing is returned
to the caller in the success envelope (`aiUsed = "gemini"`), not replaced by
the fallback generator. -/
theorem c7_counterexample :
    emptyRawLandingSpec.hero = none
    ∧ landingAgentRoute clickOnlyEvents (.parsed emptyRawLandingSpec) =
      .ok ⟨agentStats clickOnlyEvents, .fromAI emptyRawLandingSpec, "gemini", none⟩
    ∧ LandingSpecOut.fromAI emptyRawLandingSpec ≠
      .fromFallback (buildFallbackSpec (agentStats clickOnlyEvents)) := by
  refine ⟨rfl, by decide, fun hcontra => LandingSpecOut.noConfusion hcontra⟩

/-- Claim C7 (amended: fence stripping and missing-field fallback hold on
the **agent** route, for the four checked fields; the landing-agent route
strips fences but validates nothing): code fences with or without the
`json` tag are stripped, and a parsed agent response whose `heroTitle` is
missing or empty is replaced by the mock suggestion. -/
theorem c7_theorem (events : List AnalyticsEvent) (p : ParsedSuggestion)
    (h : events ≠ []) (hmiss : truthyStr p.heroTitle = false) :
    stripFences "```json\n[1, 2]\n```" = "[1, 2]"
    ∧ stripFences "```\n[1, 2]\n```" = "[1, 2]"
    ∧ stripFences "[1, 2]" = "[1, 2]"
    ∧ agentRoute events (.parsed p) =
      .ok ⟨agentStats events, .mock (buildMockSuggestion (agentStats events)), "mock",
        some "Gemini returned incomplete JSON, used mock heuristic."⟩ := by
  refine ⟨by decide, by decide, by decide, ?_⟩
  simp [agentRoute, h, hmiss]

/-- Witness for C7 at a concrete window and a fully-absent parsed object. -/
theorem c7_witness :
    clickOnlyEvents ≠ []
    ∧ truthyStr emptyParsedSuggestion.heroTitle = false
    ∧ (stripFences "```json\n[1, 2]\n```" = "[1, 2]"
        ∧ stripFences "```\n[1, 2]\n```" = "[1, 2]"
        ∧ stripFences "[1, 2]" = "[1, 2]"
        ∧ agentRoute clickOnlyEvents (.parsed emptyParsedSuggestion) =
          .ok ⟨agentStats clickOnlyEvents,
            .mock (buildMockSuggestion (agentStats clickOnlyEvents)), "mock",
            some "Gemini returned incomplete JSON, used mock heuristic."⟩) :=
  ⟨by decide, by decide,
    c7_theorem clickOnlyEvents emptyParsedSuggestion (by decide) (by decide)⟩

/-! ## C10 — in-place sort of the stats array -/

/-- Claim C10: on the landing-agent fallback path the response's `stats`
array is the in-place-sorted one — a permutation of the aggregated stats,
sorted by descending `avgScroll + 8 × clicks` — while on the AI-success
path it is returned in aggregation (insertion) order, unchanged. -/
theorem c10_theorem (events : List AnalyticsEvent) (msg : String)
    (r : RawLandingSpec) (h : events ≠ []) :
    landingAgentRoute events (.callFailed msg) =
      .ok ⟨sortByScore8Desc (agentStats events),
        .fromFallback (buildFallbackSpec (agentStats events)), "fallback", some msg⟩
    ∧ landingAgentRoute events (.parsed r) =
      .ok ⟨agentStats events, .fromAI r, "gemini", none⟩
    ∧ List.Perm (sortByScore8Desc (agentStats events)) (agentStats events)
    ∧ List.Sorted (fun a b => score8 b ≤ score8 a)
        (sortByScore8Desc (agentStats events)) := by
  refine ⟨by simp [landingAgentRoute, h], by simp [landingAgentRoute, h], ?_, ?_⟩
  · unfold sortByScore8Desc
    exact List.perm_insertionSort _ _
  · unfold sortByScore8Desc
    exact List.sorted_insertionSort _ _

/-- Witness for C10 at a window where the sort actually reorders (A first
with score 5, B second with score 8). -/
theorem c10_witness :
    flipEvents ≠ []
    ∧ (landingAgentRoute flipEvents (.callFailed "Gemini error") =
        .ok ⟨sortByScore8Desc (agentStats flipEvents),
          .fromFallback (buildFallbackSpec (agentStats flipEvents)), "fallback",
          some "Gemini error"⟩
      ∧ landingAgentRoute flipEvents (.parsed emptyRawLandingSpec) =
        .ok ⟨agentStats flipEvents, .fromAI emptyRawLandingSpec, "gemini", none⟩
      ∧ List.Perm (sortByScore8Desc (agentStats flipEvents)) (agentStats flipEvents)
      ∧ List.Sorted (fun a b => score8 b ≤ score8 a)
          (sortByScore8Desc (agentStats flipEvents))) :=
  ⟨by decide, c10_theorem flipEvents "Gemini error" emptyRawLandingSpec (by decide)⟩

end CMindX
